import Mathlib

/-!
Shallow embedding of the polling loop of `src/touch.c` (`main`, lines 149-256)
of nelsonjchen/ch552-touch-play.

Modelling conventions:
* A `Pins` record holds the raw logic level returned by `PIN_read` for each
  monitored line during one polling cycle (`true` = electrically high = the
  active-low line is NOT asserted).  The loop samples each line at most once
  per cycle (the encoder lines only on their branch), so one level per cycle
  per line is a faithful input model.
* The C `int` flags `key1Pressed`, `key2Pressed`, `key3Pressed`, `lampLight`
  only ever hold 0 or 1 and are used as booleans; they are embedded as `Bool`.
  (`knobDirection` is declared in the source but never read or written inside
  the loop, so it is omitted.)
* The six 8-byte report buffers are mutable (`buf[0] = touchCount` at lines
  213-218), so they are part of the loop state, as `List Nat` of bytes.
  `touchCount` is a C `unsigned int`; storing it into an `unsigned char`
  buffer cell truncates mod 256, written explicitly.
* Side effects of one cycle are recorded, in program order, as an `Ev` trace:
  `PIN_toggle(PIN_LED)`, `DLY_ms`, each `PIN_read` (with C short-circuit
  evaluation of `!PIN_read(PIN_KEY3) || !PIN_read(PIN_ENC_SW)` at line 185),
  `HID_sendReport`, `NEO_writeColor`, `NEO_clearPixel`, the busy-wait
  `while(!PIN_read(PIN_ENC_A));` (abstracted as the single event `waitEncA`,
  i.e. the wait is assumed to terminate), and `NEO_update`.
-/

namespace Touch

/-- The monitored input lines of `src/touch.c`. -/
inductive PinId where
  | key1
  | key2
  | key3
  | encSw
  | encA
  | encB
deriving DecidableEq

/-- Observable actions of one loop iteration, in program order. -/
inductive Ev where
  | toggleLED : Ev
  | delayMs : Nat → Ev
  | readPin : PinId → Ev
  | sendReport : List Nat → Ev
  | writeColor : Nat → Nat → Nat → Nat → Ev
  | clearPixel : Nat → Ev
  | waitEncA : Ev
  | neoUpdate : Ev
deriving DecidableEq

/-- Raw `PIN_read` levels sampled during one cycle (`true` = high = not
asserted, all lines are active-low). -/
structure Pins where
  key1 : Bool
  key2 : Bool
  key3 : Bool
  encSw : Bool
  encA : Bool
  encB : Bool
deriving DecidableEq

/-- The state of `main` that persists across loop iterations: the three
tracked key flags, `lampLight`, and the six report buffers. -/
structure LoopState where
  key1Pressed : Bool
  key2Pressed : Bool
  key3Pressed : Bool
  lampLight : Bool
  downReport1 : List Nat
  upReport1 : List Nat
  downReport2 : List Nat
  upReport2 : List Nat
  downReport3 : List Nat
  upReport3 : List Nat
deriving DecidableEq

/-- Result of one loop iteration: the new persistent state, the event trace,
and the cycle-local `touchCount` and `keyDirty` values. -/
structure CycleOut where
  state : LoopState
  events : List Ev
  touchCount : Nat
  dirty : Bool
deriving DecidableEq

/-- Initial contents of `touchDownReport1` (src/touch.c lines 83-90). -/
def initDown1 : List Nat := [0x01, 0x01, 0x03, 0x7F, 0xfa, 0x03, 0xf4, 0x01]

/-- Initial contents of `touchUpReport1` (lines 92-99). -/
def initUp1 : List Nat := [0x00, 0x01, 0x00, 0x00, 0x00, 0x00, 0x00, 0x00]

/-- Initial contents of `touchDownReport2` (lines 100-107). -/
def initDown2 : List Nat := [0x01, 0x02, 0x03, 0x7F, 0x88, 0x13, 0x88, 0x13]

/-- Initial contents of `touchUpReport2` (lines 109-116). -/
def initUp2 : List Nat := [0x00, 0x02, 0x00, 0x00, 0x00, 0x00, 0x00, 0x00]

/-- Initial contents of `touchDownReport3` (lines 117-124). -/
def initDown3 : List Nat := [0x01, 0x03, 0x03, 0x7F, 0xf3, 0x20, 0x39, 0x24]

/-- Initial contents of `touchUpReport3` (lines 126-133). -/
def initUp3 : List Nat := [0x00, 0x03, 0x00, 0x00, 0x00, 0x00, 0x00, 0x00]

/-- State right before the first loop iteration (lines 135-144). -/
def initState : LoopState :=
  { key1Pressed := false
    key2Pressed := false
    key3Pressed := false
    lampLight := false
    downReport1 := initDown1
    upReport1 := initUp1
    downReport2 := initDown2
    upReport2 := initUp2
    downReport3 := initDown3
    upReport3 := initUp3 }

/-- The per-key edge-detection pattern repeated at lines 159-170, 172-183 and
187-197: given the sampled "pressed" boolean and the tracked flag, return the
new tracked flag, whether `keyDirty` is set by this key, and the amount added
to `touchCount`. -/
def keyScan (sampledPressed tracked : Bool) : Bool × Bool × Nat :=
  if sampledPressed then
    if tracked then (true, false, 0) else (true, true, 1)
  else
    if tracked then (false, true, 0) else (false, false, 0)

/-- The per-key dispatch block repeated at lines 221-231, 232-242 and 243-253:
LED write for the key's slot followed by the HID report send. -/
def dispatchKey (slot : Nat) (pressed lamp : Bool) (down up : List Nat) :
    List Ev :=
  if pressed then
    [Ev.writeColor slot 25 19 0, Ev.sendReport down]
  else
    (if lamp then [Ev.writeColor slot 15 5 0] else [Ev.clearPixel slot])
      ++ [Ev.sendReport up]

/-- One iteration of the `while (1)` loop (lines 149-256). -/
def cycle (s : LoopState) (p : Pins) : CycleOut :=
  let k1 := keyScan (!p.key1) s.key1Pressed
  let k2 := keyScan (!p.key2) s.key2Pressed
  let k3 := keyScan (!p.key3 || !p.encSw) s.key3Pressed
  let touchCount := k1.2.2 + k2.2.2 + k3.2.2
  let encTurn := !p.encA
  let lamp := if encTurn then p.encB else s.lampLight
  let dirty := k1.2.1 || k2.2.1 || k3.2.1 || encTurn
  let d1 := s.downReport1.set 0 (touchCount % 256)
  let u1 := s.upReport1.set 0 (touchCount % 256)
  let d2 := s.downReport2.set 0 (touchCount % 256)
  let u2 := s.upReport2.set 0 (touchCount % 256)
  let d3 := s.downReport3.set 0 (touchCount % 256)
  let u3 := s.upReport3.set 0 (touchCount % 256)
  let readEvs : List Ev :=
    [Ev.readPin PinId.key1, Ev.readPin PinId.key2, Ev.readPin PinId.key3]
      ++ (if p.key3 then [Ev.readPin PinId.encSw] else [])
      ++ [Ev.readPin PinId.encA]
      ++ (if encTurn then
            [Ev.readPin PinId.encB, Ev.delayMs 10, Ev.waitEncA]
          else [])
  let dispatchEvs : List Ev :=
    if dirty then
      dispatchKey 0 k1.1 lamp d1 u1 ++ dispatchKey 1 k2.1 lamp d2 u2
        ++ dispatchKey 2 k3.1 lamp d3 u3
    else []
  { state :=
      { key1Pressed := k1.1
        key2Pressed := k2.1
        key3Pressed := k3.1
        lampLight := lamp
        downReport1 := d1
        upReport1 := u1
        downReport2 := d2
        upReport2 := u2
        downReport3 := d3
        upReport3 := u3 }
    events := [Ev.toggleLED, Ev.delayMs 10] ++ readEvs ++ dispatchEvs
      ++ [Ev.neoUpdate]
    touchCount := touchCount
    dirty := dirty }

/-- Iterate the loop over a list of per-cycle pin samples, collecting all
events in order. -/
def runCycles (s : LoopState) : List Pins → LoopState × List Ev
  | [] => (s, [])
  | p :: ps =>
      let c := cycle s p
      let r := runCycles c.state ps
      (r.1, c.events ++ r.2)

/-- Is the event a `HID_sendReport` call? -/
def isSend : Ev → Bool
  | Ev.sendReport _ => true
  | _ => false

/-- The HID report dispatches of a trace, in order. -/
def sends (evs : List Ev) : List Ev := evs.filter isSend

/-- Is the event a per-slot LED write (`NEO_writeColor` or `NEO_clearPixel`)? -/
def isLedWrite : Ev → Bool
  | Ev.writeColor _ _ _ _ => true
  | Ev.clearPixel _ => true
  | _ => false

/-- The per-slot LED writes of a trace, in order. -/
def ledWrites (evs : List Ev) : List Ev := evs.filter isLedWrite

/-- Is the event a `PIN_read` call? -/
def isRead : Ev → Bool
  | Ev.readPin _ => true
  | _ => false

/-- The non-`PIN_read` events of a trace: the externally visible behavior
(reports, LED writes, delays, waits), used to compare cycles that differ only
in which pins they happened to read. -/
def behavior (evs : List Ev) : List Ev := evs.filter (fun e => !isRead e)

/-- How many times the encoder phase-B line is sampled in a trace. -/
def numReadB (evs : List Ev) : Nat :=
  (evs.filter (fun e => e = Ev.readPin PinId.encB)).length

/-- The reports dispatched for a given contact identifier (byte 1 of the
report), in order. -/
def reportsForKey (kId : Nat) (evs : List Ev) : List (List Nat) :=
  evs.filterMap (fun e =>
    match e with
    | Ev.sendReport r => if r.get? 1 = some kId then some r else none
    | _ => none)

/-- Number of keys whose tracked state is pressed. -/
def pressedCount (s : LoopState) : Nat :=
  (if s.key1Pressed then 1 else 0) + (if s.key2Pressed then 1 else 0)
    + (if s.key3Pressed then 1 else 0)

/-- All lines high: no key pressed, encoder at rest. -/
def allHigh : Pins :=
  { key1 := true, key2 := true, key3 := true
    encSw := true, encA := true, encB := true }

/-- Only key 1's line is pulled low. -/
def pK1 : Pins :=
  { key1 := false, key2 := true, key3 := true
    encSw := true, encA := true, encB := true }

/-- Key 1 and key 2 pulled low. -/
def pK12 : Pins :=
  { key1 := false, key2 := false, key3 := true
    encSw := true, encA := true, encB := true }

/-- Only key 2's line is pulled low. -/
def pK2 : Pins :=
  { key1 := true, key2 := false, key3 := true
    encSw := true, encA := true, encB := true }

/-- All three key lines pulled low in the same cycle. -/
def pAll3 : Pins :=
  { key1 := false, key2 := false, key3 := false
    encSw := true, encA := true, encB := true }

/-- Encoder phase A asserted (rotation), phase B high, keys untouched. -/
def pEncTurn : Pins :=
  { key1 := true, key2 := true, key3 := true
    encSw := true, encA := false, encB := true }

/-- The LED write the dispatch block performs for one slot, as a function of
the key's new pressed flag and `lampLight` (lines 222, 226, 228 etc.). -/
def ledFor (slot : Nat) (pressed lamp : Bool) : List Ev :=
  if pressed then [Ev.writeColor slot 25 19 0]
  else if lamp then [Ev.writeColor slot 15 5 0] else [Ev.clearPixel slot]

lemma keyScan_fst (a b : Bool) : (keyScan a b).1 = a := by
  cases a <;> cases b <;> rfl

lemma keyScan_same (b : Bool) : keyScan b b = (b, false, 0) := by
  cases b <;> rfl

lemma tail_set_zero (l : List Nat) (a : Nat) : (l.set 0 a).tail = l.tail := by
  cases l <;> rfl

lemma sends_append (a b : List Ev) : sends (a ++ b) = sends a ++ sends b :=
  List.filter_append a b

lemma sends_ite (c : Prop) [Decidable c] (a b : List Ev) :
    sends (if c then a else b) = if c then sends a else sends b :=
  apply_ite sends c a b

lemma sends_dispatchKey (slot : Nat) (pr la : Bool) (d u : List Nat) :
    sends (dispatchKey slot pr la d u) =
      [Ev.sendReport (if pr then d else u)] := by
  cases pr <;> cases la <;> rfl

lemma ledWrites_append (a b : List Ev) :
    ledWrites (a ++ b) = ledWrites a ++ ledWrites b :=
  List.filter_append a b

lemma ledWrites_ite (c : Prop) [Decidable c] (a b : List Ev) :
    ledWrites (if c then a else b) = if c then ledWrites a else ledWrites b :=
  apply_ite ledWrites c a b

lemma ledWrites_dispatchKey (slot : Nat) (pr la : Bool) (d u : List Nat) :
    ledWrites (dispatchKey slot pr la d u) = ledFor slot pr la := by
  cases pr <;> cases la <;> rfl

/-- The event trace of one cycle, spelled out. -/
lemma events_cycle (s : LoopState) (p : Pins) :
    (cycle s p).events =
      [Ev.toggleLED, Ev.delayMs 10, Ev.readPin PinId.key1,
        Ev.readPin PinId.key2, Ev.readPin PinId.key3]
        ++ (if p.key3 then [Ev.readPin PinId.encSw] else [])
        ++ [Ev.readPin PinId.encA]
        ++ (if !p.encA then
              [Ev.readPin PinId.encB, Ev.delayMs 10, Ev.waitEncA]
            else [])
        ++ (if (cycle s p).dirty then
              dispatchKey 0 (cycle s p).state.key1Pressed
                  (cycle s p).state.lampLight
                  (cycle s p).state.downReport1 (cycle s p).state.upReport1
                ++ dispatchKey 1 (cycle s p).state.key2Pressed
                  (cycle s p).state.lampLight
                  (cycle s p).state.downReport2 (cycle s p).state.upReport2
                ++ dispatchKey 2 (cycle s p).state.key3Pressed
                  (cycle s p).state.lampLight
                  (cycle s p).state.downReport3 (cycle s p).state.upReport3
            else [])
        ++ [Ev.neoUpdate] := by
  simp [cycle]

/-- The HID dispatches of one cycle: nothing unless dirty; when dirty, one
report per key, down variant when the key's (new) tracked state is pressed,
up variant otherwise, in key order 1, 2, 3. -/
lemma sends_cycle (s : LoopState) (p : Pins) :
    sends (cycle s p).events =
      if (cycle s p).dirty then
        [Ev.sendReport (if (cycle s p).state.key1Pressed then
            (cycle s p).state.downReport1 else (cycle s p).state.upReport1),
          Ev.sendReport (if (cycle s p).state.key2Pressed then
            (cycle s p).state.downReport2 else (cycle s p).state.upReport2),
          Ev.sendReport (if (cycle s p).state.key3Pressed then
            (cycle s p).state.downReport3 else (cycle s p).state.upReport3)]
      else [] := by
  rw [events_cycle]
  simp only [sends_append, sends_ite, sends_dispatchKey]
  cases hd : (cycle s p).dirty <;> simp [sends, isSend]

/-- The per-slot LED writes of one cycle: nothing unless dirty; when dirty,
slot 0, 1, 2 each get the color dictated by the key's new pressed flag and
the (new) `lampLight`. -/
lemma ledWrites_cycle (s : LoopState) (p : Pins) :
    ledWrites (cycle s p).events =
      if (cycle s p).dirty then
        ledFor 0 (cycle s p).state.key1Pressed (cycle s p).state.lampLight
          ++ ledFor 1 (cycle s p).state.key2Pressed (cycle s p).state.lampLight
          ++ ledFor 2 (cycle s p).state.key3Pressed (cycle s p).state.lampLight
      else [] := by
  rw [events_cycle]
  simp only [ledWrites_append, ledWrites_ite, ledWrites_dispatchKey]
  cases hd : (cycle s p).dirty <;> simp [ledWrites, isLedWrite]

lemma get0_set0 (l : List Nat) (a : Nat) (h : l ≠ []) :
    (l.set 0 a).get? 0 = some a := by
  cases l with
  | nil => exact absurd rfl h
  | cons b t => rfl

lemma numReadB_append (a b : List Ev) :
    numReadB (a ++ b) = numReadB a + numReadB b := by
  simp [numReadB, List.filter_append]

lemma numReadB_dispatchKey (slot : Nat) (pr la : Bool) (d u : List Nat) :
    numReadB (dispatchKey slot pr la d u) = 0 := by
  cases pr <;> cases la <;> rfl

lemma waitA_notin_dispatchKey (slot : Nat) (pr la : Bool) (d u : List Nat) :
    Ev.waitEncA ∉ dispatchKey slot pr la d u := by
  cases pr <;> cases la <;> simp [dispatchKey]

lemma readB_notin_dispatchKey (slot : Nat) (pr la : Bool) (d u : List Nat) :
    ∀ a ∈ dispatchKey slot pr la d u, ¬a = Ev.readPin PinId.encB := by
  cases pr <;> cases la <;> simp [dispatchKey]

lemma cycle_tails (s : LoopState) (p : Pins) :
    (cycle s p).state.downReport1.tail = s.downReport1.tail
      ∧ (cycle s p).state.upReport1.tail = s.upReport1.tail
      ∧ (cycle s p).state.downReport2.tail = s.downReport2.tail
      ∧ (cycle s p).state.upReport2.tail = s.upReport2.tail
      ∧ (cycle s p).state.downReport3.tail = s.downReport3.tail
      ∧ (cycle s p).state.upReport3.tail = s.upReport3.tail := by
  refine ⟨?_, ?_, ?_, ?_, ?_, ?_⟩ <;> exact tail_set_zero _ _

lemma runCycles_tails : ∀ (ps : List Pins) (s : LoopState),
    (runCycles s ps).1.downReport1.tail = s.downReport1.tail
      ∧ (runCycles s ps).1.upReport1.tail = s.upReport1.tail
      ∧ (runCycles s ps).1.downReport2.tail = s.downReport2.tail
      ∧ (runCycles s ps).1.upReport2.tail = s.upReport2.tail
      ∧ (runCycles s ps).1.downReport3.tail = s.downReport3.tail
      ∧ (runCycles s ps).1.upReport3.tail = s.upReport3.tail
  | [], s => ⟨rfl, rfl, rfl, rfl, rfl, rfl⟩
  | p :: ps, s => by
      obtain ⟨a1, a2, a3, a4, a5, a6⟩ := runCycles_tails ps (cycle s p).state
      obtain ⟨b1, b2, b3, b4, b5, b6⟩ := cycle_tails s p
      exact ⟨a1.trans b1, a2.trans b2, a3.trans b3, a4.trans b4, a5.trans b5,
        a6.trans b6⟩

/-- Claim C1. The claim states that each cycle's `touchCount` equals the
number of keys whose tracked state is pressed that cycle (held keys
included), and that dispatched reports carry that count.  The code resets
`touchCount` to 0 every cycle and increments it only for keys that newly
become pressed (lines 151, 163, 176, 190), so a key held from an earlier
cycle is not counted.  This theorem evaluates the embedding at the failing
input: after key 1 is pressed in one cycle and held in the next, the second
cycle has one key pressed but `touchCount = 0`; and when key 2 is then
newly pressed while key 1 is held, two keys are pressed but `touchCount = 1`
and every report dispatched that cycle carries contact-count byte 1. -/
theorem c1_touch_count_mismatch :
    ((cycle initState pK1).state.key1Pressed = true
        ∧ pressedCount (cycle (cycle initState pK1).state pK1).state = 1
        ∧ (cycle (cycle initState pK1).state pK1).touchCount = 0)
      ∧ (pressedCount (cycle (cycle initState pK1).state pK12).state = 2
        ∧ (cycle (cycle initState pK1).state pK12).touchCount = 1
        ∧ sends (cycle (cycle initState pK1).state pK12).events =
            [Ev.sendReport [1, 1, 3, 127, 250, 3, 244, 1],
              Ev.sendReport [1, 2, 3, 127, 136, 19, 136, 19],
              Ev.sendReport [1, 3, 0, 0, 0, 0, 0, 0]]) := by
  decide

/-- Claim C2. The claim states that a report is dispatched for a key iff
that key's tracked state changed this cycle.  The code (lines 220-254)
instead dispatches one report for every one of the three keys whenever
`keyDirty` is set by anything, contradicting its own comment at line 138
("Only send updates if the key state has changed").  Failing input: from
the initial state, a cycle in which only key 1's line is low.  Keys 2 and 3
do not change state, yet the cycle dispatches three reports, including up
reports for keys 2 and 3. -/
theorem c2_reports_for_unchanged_keys :
    (cycle initState pK1).state.key2Pressed = initState.key2Pressed
      ∧ (cycle initState pK1).state.key3Pressed = initState.key3Pressed
      ∧ sends (cycle initState pK1).events =
          [Ev.sendReport [1, 1, 3, 127, 250, 3, 244, 1],
            Ev.sendReport [1, 2, 0, 0, 0, 0, 0, 0],
            Ev.sendReport [1, 3, 0, 0, 0, 0, 0, 0]] := by
  decide

/-- Claim C3. The claim states that dispatches for one key strictly
alternate down/up.  Because the code dispatches a report for every key in
every dirty cycle (see C2), a key that stays released gets its up report
re-sent whenever another key makes the cycle dirty.  Failing input: key 1
pressed (cycle 1), released (cycle 2), then key 2 pressed (cycle 3).  The
reports dispatched for contact id 1 are down, up, up — the flags byte
(index 2) of the last two dispatches is 0 both times, i.e. two consecutive
up dispatches for key 1 with no intervening down. -/
theorem c3_two_consecutive_ups :
    reportsForKey 1 (runCycles initState [pK1, allHigh, pK2]).2 =
        [[1, 1, 3, 127, 250, 3, 244, 1],
          [0, 1, 0, 0, 0, 0, 0, 0],
          [1, 1, 0, 0, 0, 0, 0, 0]]
      ∧ (reportsForKey 1 (runCycles initState [pK1, allHigh, pK2]).2).map
          (fun r => r.get? 2) = [some 3, some 0, some 0] := by
  decide

/-- Claim C4: each cycle overwrites byte 0 of all six report templates with
the cycle's `touchCount` (truncated to a byte), whether or not that template
is dispatched this cycle, and every report dispatched afterwards is one of
the updated templates (down variant for a key whose new tracked state is
pressed, up variant otherwise), so a dispatched report always carries the
freshly written contact count. -/
theorem c4_templates_overwritten (s : LoopState) (p : Pins) :
    (cycle s p).state.downReport1
        = s.downReport1.set 0 ((cycle s p).touchCount % 256)
      ∧ (cycle s p).state.upReport1
        = s.upReport1.set 0 ((cycle s p).touchCount % 256)
      ∧ (cycle s p).state.downReport2
        = s.downReport2.set 0 ((cycle s p).touchCount % 256)
      ∧ (cycle s p).state.upReport2
        = s.upReport2.set 0 ((cycle s p).touchCount % 256)
      ∧ (cycle s p).state.downReport3
        = s.downReport3.set 0 ((cycle s p).touchCount % 256)
      ∧ (cycle s p).state.upReport3
        = s.upReport3.set 0 ((cycle s p).touchCount % 256)
      ∧ sends (cycle s p).events =
          (if (cycle s p).dirty then
            [Ev.sendReport (if (cycle s p).state.key1Pressed then
                (cycle s p).state.downReport1 else (cycle s p).state.upReport1),
              Ev.sendReport (if (cycle s p).state.key2Pressed then
                (cycle s p).state.downReport2 else (cycle s p).state.upReport2),
              Ev.sendReport (if (cycle s p).state.key3Pressed then
                (cycle s p).state.downReport3 else (cycle s p).state.upReport3)]
          else []) :=
  ⟨rfl, rfl, rfl, rfl, rfl, rfl, sends_cycle s p⟩

/-- Claim C10: the loop body only ever writes byte 0 of each report buffer —
bytes 1 through 7 (contact id, flags, pressure, coordinates) of all six
buffers are unchanged by any single cycle, and after any sequence of cycles
from startup they still hold their initialization values. -/
theorem c10_frame_bytes_1_to_7 :
    (∀ (s : LoopState) (p : Pins),
        (cycle s p).state.downReport1.tail = s.downReport1.tail
          ∧ (cycle s p).state.upReport1.tail = s.upReport1.tail
          ∧ (cycle s p).state.downReport2.tail = s.downReport2.tail
          ∧ (cycle s p).state.upReport2.tail = s.upReport2.tail
          ∧ (cycle s p).state.downReport3.tail = s.downReport3.tail
          ∧ (cycle s p).state.upReport3.tail = s.upReport3.tail)
      ∧ (∀ ps : List Pins,
          (runCycles initState ps).1.downReport1.tail = initDown1.tail
            ∧ (runCycles initState ps).1.upReport1.tail = initUp1.tail
            ∧ (runCycles initState ps).1.downReport2.tail = initDown2.tail
            ∧ (runCycles initState ps).1.upReport2.tail = initUp2.tail
            ∧ (runCycles initState ps).1.downReport3.tail = initDown3.tail
            ∧ (runCycles initState ps).1.upReport3.tail = initUp3.tail) :=
  ⟨cycle_tails, fun ps => runCycles_tails ps initState⟩

lemma c5_steady : ∀ n : Nat,
    sends (runCycles (cycle initState allHigh).state
        (List.replicate n allHigh)).2 = []
      ∧ ledWrites (runCycles (cycle initState allHigh).state
        (List.replicate n allHigh)).2 = [] := by
  intro n
  induction n with
  | zero => exact ⟨rfl, rfl⟩
  | succ n ih =>
      have hfix : (cycle (cycle initState allHigh).state allHigh).state
          = (cycle initState allHigh).state := by decide
      have hs : sends
          (cycle (cycle initState allHigh).state allHigh).events = [] := by
        decide
      have hl : ledWrites
          (cycle (cycle initState allHigh).state allHigh).events = [] := by
        decide
      rw [List.replicate_succ]
      simp only [runCycles, sends_append, ledWrites_append, hfix, hs, hl,
        ih.1, ih.2]
      exact ⟨rfl, rfl⟩

/-- Claim C5: a cycle in which every sampled level agrees with the tracked
state (key 3's sample being the OR of its pin and the encoder switch pin)
and the encoder phase-A line is high ends with `keyDirty` false, dispatches
no HID report and performs no per-slot LED write; and iterating the loop
from startup with every line high forever produces no report and no
per-slot LED write in any cycle. -/
theorem c5_quiescent :
    (∀ (s : LoopState) (p : Pins),
        (!p.key1) = s.key1Pressed → (!p.key2) = s.key2Pressed →
        (!p.key3 || !p.encSw) = s.key3Pressed → p.encA = true →
        ((cycle s p).dirty = false ∧ sends (cycle s p).events = []
          ∧ ledWrites (cycle s p).events = []))
      ∧ (∀ n : Nat,
          sends (runCycles initState (List.replicate n allHigh)).2 = []
            ∧ ledWrites (runCycles initState
                (List.replicate n allHigh)).2 = []) := by
  constructor
  · intro s p h1 h2 h3 h4
    have hd : (cycle s p).dirty = false := by
      simp [cycle, h1, h2, h3, h4, keyScan_same]
    refine ⟨hd, ?_, ?_⟩
    · rw [sends_cycle, hd]; simp
    · rw [ledWrites_cycle, hd]; simp
  · intro n
    cases n with
    | zero => exact ⟨rfl, rfl⟩
    | succ n =>
        have h0s : sends (cycle initState allHigh).events = [] := by decide
        have h0l : ledWrites (cycle initState allHigh).events = [] := by
          decide
        rw [List.replicate_succ]
        simp only [runCycles, sends_append, ledWrites_append, h0s, h0l,
          (c5_steady n).1, (c5_steady n).2]
        exact ⟨rfl, rfl⟩

/-- Witness for C5 at a concrete quiescent input. -/
theorem c5_quiescent_witness :
    (cycle initState allHigh).dirty = false
      ∧ sends (cycle initState allHigh).events = []
      ∧ ledWrites (cycle initState allHigh).events = [] :=
  c5_quiescent.1 initState allHigh (by decide) (by decide) (by decide)
    (by decide)

/-- Claim C6: in a dirty cycle the LED colors of all three slots are
recomputed unconditionally from the new state — active color (25,19,0) for
a pressed key, ambient color (15,5,0) for a released key while `lampLight`
is set, cleared slot otherwise; and any cycle that changes `lampLight` is
dirty, so every released key's color is refreshed in that same cycle. -/
theorem c6_led_recompute (s : LoopState) (p : Pins) :
    ((cycle s p).dirty = true →
        ledWrites (cycle s p).events =
          ledFor 0 (cycle s p).state.key1Pressed (cycle s p).state.lampLight
            ++ ledFor 1 (cycle s p).state.key2Pressed
              (cycle s p).state.lampLight
            ++ ledFor 2 (cycle s p).state.key3Pressed
              (cycle s p).state.lampLight)
      ∧ ((cycle s p).state.lampLight ≠ s.lampLight →
          (cycle s p).dirty = true) := by
  constructor
  · intro hd
    rw [ledWrites_cycle, hd]
    simp
  · intro hl
    cases hA : p.encA with
    | false => simp [cycle, hA]
    | true =>
        exfalso
        exact hl (by simp [cycle, hA])

/-- Witness for C6: a dirty cycle (key 1 newly pressed) and a
`lampLight`-changing cycle (encoder rotation). -/
theorem c6_led_recompute_witness :
    ledWrites (cycle initState pK1).events =
        ledFor 0 (cycle initState pK1).state.key1Pressed
            (cycle initState pK1).state.lampLight
          ++ ledFor 1 (cycle initState pK1).state.key2Pressed
            (cycle initState pK1).state.lampLight
          ++ ledFor 2 (cycle initState pK1).state.key3Pressed
            (cycle initState pK1).state.lampLight
      ∧ (cycle initState pEncTurn).dirty = true :=
  ⟨(c6_led_recompute initState pK1).1 (by decide),
    (c6_led_recompute initState pEncTurn).2 (by decide)⟩

/-- Claim C7: when the encoder phase-A line is asserted (low), the cycle
samples phase B exactly once, sets `lampLight` to the sampled phase-B level
(high level → 1, low level → 0), marks the cycle dirty, and its trace
contains the segment "read B, debounce delay, busy-wait until A is high
again" in that order; when phase A is high, `lampLight` is untouched, phase
B is never sampled and no busy-wait occurs.  (The busy-wait of line 208 is
embedded as the single event `waitEncA`, i.e. it is assumed to return.) -/
theorem c7_encoder (s : LoopState) (p : Pins) :
    (p.encA = false →
        numReadB (cycle s p).events = 1
          ∧ (cycle s p).state.lampLight = p.encB
          ∧ (cycle s p).dirty = true
          ∧ ∃ pre post, (cycle s p).events =
              pre ++ [Ev.readPin PinId.encB, Ev.delayMs 10, Ev.waitEncA]
                ++ post)
      ∧ (p.encA = true →
          (cycle s p).state.lampLight = s.lampLight
            ∧ numReadB (cycle s p).events = 0
            ∧ Ev.waitEncA ∉ (cycle s p).events) := by
  constructor
  · intro hA
    refine ⟨?_, by simp [cycle, hA], by simp [cycle, hA], ?_⟩
    · rw [events_cycle]
      cases h3 : p.key3 <;> cases hd : (cycle s p).dirty <;>
        simp [hA, hd, numReadB_append, numReadB_dispatchKey, numReadB] <;>
        exact ⟨readB_notin_dispatchKey _ _ _ _ _,
          readB_notin_dispatchKey _ _ _ _ _,
          readB_notin_dispatchKey _ _ _ _ _⟩
    · refine ⟨[Ev.toggleLED, Ev.delayMs 10, Ev.readPin PinId.key1,
          Ev.readPin PinId.key2, Ev.readPin PinId.key3]
          ++ (if p.key3 then [Ev.readPin PinId.encSw] else [])
          ++ [Ev.readPin PinId.encA],
        (if (cycle s p).dirty then
            dispatchKey 0 (cycle s p).state.key1Pressed
                (cycle s p).state.lampLight
                (cycle s p).state.downReport1 (cycle s p).state.upReport1
              ++ dispatchKey 1 (cycle s p).state.key2Pressed
                (cycle s p).state.lampLight
                (cycle s p).state.downReport2 (cycle s p).state.upReport2
              ++ dispatchKey 2 (cycle s p).state.key3Pressed
                (cycle s p).state.lampLight
                (cycle s p).state.downReport3 (cycle s p).state.upReport3
          else []) ++ [Ev.neoUpdate], ?_⟩
      rw [events_cycle]
      simp [hA, List.append_assoc]
  · intro hA
    refine ⟨by simp [cycle, hA], ?_, ?_⟩
    · rw [events_cycle]
      cases h3 : p.key3 <;> cases hd : (cycle s p).dirty <;>
        simp [hA, hd, numReadB_append, numReadB_dispatchKey, numReadB] <;>
        exact ⟨readB_notin_dispatchKey _ _ _ _ _,
          readB_notin_dispatchKey _ _ _ _ _,
          readB_notin_dispatchKey _ _ _ _ _⟩
    · rw [events_cycle]
      cases h3 : p.key3 <;> cases hd : (cycle s p).dirty <;>
        simp [hA, hd, waitA_notin_dispatchKey]

/-- Witness for C7: an encoder-asserted cycle and an encoder-idle cycle. -/
theorem c7_encoder_witness :
    (numReadB (cycle initState pEncTurn).events = 1
        ∧ (cycle initState pEncTurn).state.lampLight = pEncTurn.encB
        ∧ (cycle initState pEncTurn).dirty = true
        ∧ ∃ pre post, (cycle initState pEncTurn).events =
            pre ++ [Ev.readPin PinId.encB, Ev.delayMs 10, Ev.waitEncA]
              ++ post)
      ∧ ((cycle initState allHigh).state.lampLight = initState.lampLight
          ∧ numReadB (cycle initState allHigh).events = 0
          ∧ Ev.waitEncA ∉ (cycle initState allHigh).events) :=
  ⟨(c7_encoder initState pEncTurn).1 rfl,
    (c7_encoder initState allHigh).2 rfl⟩

/-- Claim C8: key 3's edge detection is driven by the OR of key 3's raw pin
assertion and the encoder push-button assertion (line 185): the new tracked
state of key 3 is exactly that OR, and two cycles whose pin samples agree
everywhere except in how that OR is realized produce the same new state,
the same `keyDirty` and `touchCount`, and the same non-`PIN_read` behavior
(reports, LED writes, delays, waits). -/
theorem c8_key3_or (s : LoopState) (p q : Pins)
    (h1 : p.key1 = q.key1) (h2 : p.key2 = q.key2)
    (hA : p.encA = q.encA) (hB : p.encB = q.encB)
    (h3 : (!p.key3 || !p.encSw) = (!q.key3 || !q.encSw)) :
    (cycle s p).state.key3Pressed = (!p.key3 || !p.encSw)
      ∧ (cycle s p).state = (cycle s q).state
      ∧ (cycle s p).dirty = (cycle s q).dirty
      ∧ (cycle s p).touchCount = (cycle s q).touchCount
      ∧ behavior (cycle s p).events = behavior (cycle s q).events := by
  obtain ⟨pk1, pk2, pk3, psw, pA, pB⟩ := p
  obtain ⟨qk1, qk2, qk3, qsw, qA, qB⟩ := q
  simp only at h1 h2 hA hB h3
  subst h1
  subst h2
  subst hA
  subst hB
  cases pk3 <;> cases psw <;> cases qk3 <;> cases qsw <;>
    first
      | exact absurd h3 (by decide)
      | exact ⟨keyScan_fst _ _, rfl, rfl, rfl, rfl⟩

/-- Witness for C8: key 3's own pin low versus the encoder push-button low,
with all other lines high. -/
theorem c8_key3_or_witness :
    (cycle initState
          { key1 := true, key2 := true, key3 := false
            encSw := true, encA := true, encB := true }).state.key3Pressed
        = true
      ∧ (cycle initState
            { key1 := true, key2 := true, key3 := false
              encSw := true, encA := true, encB := true }).state
        = (cycle initState
            { key1 := true, key2 := true, key3 := true
              encSw := false, encA := true, encB := true }).state
      ∧ (cycle initState
            { key1 := true, key2 := true, key3 := false
              encSw := true, encA := true, encB := true }).dirty
        = (cycle initState
            { key1 := true, key2 := true, key3 := true
              encSw := false, encA := true, encB := true }).dirty
      ∧ (cycle initState
            { key1 := true, key2 := true, key3 := false
              encSw := true, encA := true, encB := true }).touchCount
        = (cycle initState
            { key1 := true, key2 := true, key3 := true
              encSw := false, encA := true, encB := true }).touchCount
      ∧ behavior (cycle initState
            { key1 := true, key2 := true, key3 := false
              encSw := true, encA := true, encB := true }).events
        = behavior (cycle initState
            { key1 := true, key2 := true, key3 := true
              encSw := false, encA := true, encB := true }).events :=
  c8_key3_or initState
    { key1 := true, key2 := true, key3 := false
      encSw := true, encA := true, encB := true }
    { key1 := true, key2 := true, key3 := true
      encSw := false, encA := true, encB := true }
    rfl rfl rfl rfl (by decide)

/-- Claim C9: in a cycle where all three keys transition to pressed from the
all-released state, `touchCount` is 3 and exactly three down reports are
dispatched, in the strict order key 1, key 2, key 3 (the down templates with
byte 0 freshly set to 3), each carrying contact count 3 in byte 0. -/
theorem c9_all_three_down (s : LoopState) (p : Pins)
    (hs1 : s.key1Pressed = false) (hs2 : s.key2Pressed = false)
    (hs3 : s.key3Pressed = false)
    (hn1 : s.downReport1 ≠ []) (hn2 : s.downReport2 ≠ [])
    (hn3 : s.downReport3 ≠ [])
    (hp1 : p.key1 = false) (hp2 : p.key2 = false)
    (hp3 : (!p.key3 || !p.encSw) = true) :
    (cycle s p).touchCount = 3
      ∧ sends (cycle s p).events =
          [Ev.sendReport (s.downReport1.set 0 3),
            Ev.sendReport (s.downReport2.set 0 3),
            Ev.sendReport (s.downReport3.set 0 3)]
      ∧ (s.downReport1.set 0 3).get? 0 = some 3
      ∧ (s.downReport2.set 0 3).get? 0 = some 3
      ∧ (s.downReport3.set 0 3).get? 0 = some 3 := by
  have ht : (cycle s p).touchCount = 3 := by
    simp [cycle, hs1, hs2, hs3, hp1, hp2, hp3, keyScan]
  have hk1 : (cycle s p).state.key1Pressed = true := by
    rw [show (cycle s p).state.key1Pressed = !p.key1 from keyScan_fst _ _,
      hp1]
    rfl
  have hk2 : (cycle s p).state.key2Pressed = true := by
    rw [show (cycle s p).state.key2Pressed = !p.key2 from keyScan_fst _ _,
      hp2]
    rfl
  have hk3 : (cycle s p).state.key3Pressed = true := by
    rw [show (cycle s p).state.key3Pressed = (!p.key3 || !p.encSw) from
      keyScan_fst _ _, hp3]
  have hd : (cycle s p).dirty = true := by
    simp [cycle, hs1, hs2, hs3, hp1, hp2, hp3, keyScan]
  have hb1 : (cycle s p).state.downReport1 = s.downReport1.set 0 3 := by
    rw [show (cycle s p).state.downReport1
      = s.downReport1.set 0 ((cycle s p).touchCount % 256) from rfl, ht]
  have hb2 : (cycle s p).state.downReport2 = s.downReport2.set 0 3 := by
    rw [show (cycle s p).state.downReport2
      = s.downReport2.set 0 ((cycle s p).touchCount % 256) from rfl, ht]
  have hb3 : (cycle s p).state.downReport3 = s.downReport3.set 0 3 := by
    rw [show (cycle s p).state.downReport3
      = s.downReport3.set 0 ((cycle s p).touchCount % 256) from rfl, ht]
  refine ⟨ht, ?_, get0_set0 _ _ hn1, get0_set0 _ _ hn2, get0_set0 _ _ hn3⟩
  rw [sends_cycle, hd]
  simp [hk1, hk2, hk3, hb1, hb2, hb3]

/-- Witness for C9 at the concrete all-three-pressed input. -/
theorem c9_all_three_down_witness :
    (cycle initState pAll3).touchCount = 3
      ∧ sends (cycle initState pAll3).events =
          [Ev.sendReport (initState.downReport1.set 0 3),
            Ev.sendReport (initState.downReport2.set 0 3),
            Ev.sendReport (initState.downReport3.set 0 3)]
      ∧ (initState.downReport1.set 0 3).get? 0 = some 3
      ∧ (initState.downReport2.set 0 3).get? 0 = some 3
      ∧ (initState.downReport3.set 0 3).get? 0 = some 3 :=
  c9_all_three_down initState pAll3 rfl rfl rfl (by decide) (by decide)
    (by decide) rfl rfl rfl

end Touch
